import Mathlib

/-!
# android-wrapper/bridge.c : guarded callback trampolines

A shallow embedding of `bridge.c` / `bridge.h`.

* Data pointers (`void *`, `char *`, `const char *`) and function pointers are
  machine addresses, modelled as natural numbers with `NULL = 0`.
* C `int` arguments are modelled as integers; the wrappers do no arithmetic on
  them, they only pass them on.
* The five file-scope function pointers form the record `Slots`.
* The code behind a function pointer is supplied by the host and is not part of
  the repository.  It is a parameter (`Host`): for every address and every
  signature used by `bridge.h` it says what the code at that address does to the
  host-side world and, for `resolve_process_func`, what it returns.
  Host code is entered synchronously and runs to completion; it acts on the
  host world and does not assign the five globals (the specification places
  installation before all dispatch).
* An indirect call through a null function pointer is a fault (`Fault.null_call`);
  every wrapper therefore returns an `Except Fault _`.
* Each indirect call the bridge makes is appended to a ghost trace of
  `HostCall` events (callee address and the arguments passed).
-/

namespace Bridge

/-- A machine address (data pointer or function pointer). -/
abbrev Ptr := Nat

/-- The null pointer constant. -/
def NULL : Ptr := 0

/-- The five host-injected function pointers declared in `bridge.h` and defined at
file scope in `bridge.c` (lines 3-7). -/
structure Slots where
  release_object_func : Ptr
  free_string_func : Ptr
  resolve_process_func : Ptr
  protect_socket_func : Ptr
  result_func : Ptr
  deriving DecidableEq, Repr

/-- One indirect call made by the bridge: the address called (`fn`) and the
arguments handed over, tagged by the signature through which it was called. -/
inductive HostCall where
  | release_object (fn obj : Ptr)
  | free_string (fn data : Ptr)
  | resolve_process (fn tun_ctx : Ptr) (protocol : Int) (source target : Ptr) (uid : Int)
  | protect_socket (fn tun_ctx : Ptr) (fd : Int)
  | result (fn callback data : Ptr)
  deriving DecidableEq, Repr

/-- The only way an indirect call can go wrong inside the bridge itself. -/
inductive Fault where
  | null_call
  deriving DecidableEq, Repr

/-- Host-supplied code.  `W` is the host-side world (heap, JVM, ...).  Each field
gives the behaviour of the code found at address `fn` when it is entered with
the corresponding signature of `bridge.h`; the first argument is always `fn`. -/
structure Host (W : Type) where
  run_release_object : Ptr → Ptr → W → W
  run_free_string : Ptr → Ptr → W → W
  run_resolve_process : Ptr → Ptr → Int → Ptr → Ptr → Int → W → Ptr × W
  run_protect_socket : Ptr → Ptr → Int → W → W
  run_result : Ptr → Ptr → Ptr → W → W

/-- Program state: the five globals, the host world, and the ghost trace of the
indirect calls made so far (oldest first). -/
structure State (W : Type) where
  slots : Slots
  world : W
  trace : List HostCall
  deriving DecidableEq

/-- The C expression `fn(args)` for a function pointer `fn` returning `void`:
faults when `fn` is null, otherwise runs the host code and logs the call. -/
def call_void {W : Type} (fn : Ptr) (ev : HostCall) (body : W → W) (s : State W) :
    Except Fault (State W) :=
  if fn = NULL then .error Fault.null_call
  else .ok { s with world := body s.world, trace := s.trace ++ [ev] }

/-- The C expression `fn(args)` for a function pointer `fn` returning `char *`. -/
def call_ptr {W : Type} (fn : Ptr) (ev : HostCall) (body : W → Ptr × W) (s : State W) :
    Except Fault (Ptr × State W) :=
  if fn = NULL then .error Fault.null_call
  else .ok ((body s.world).1, { s with world := (body s.world).2, trace := s.trace ++ [ev] })

/-- `void release_object(void *obj)`, bridge.c lines 9-14. -/
def release_object {W : Type} (h : Host W) (obj : Ptr) (s : State W) :
    Except Fault (State W) :=
  if s.slots.release_object_func = NULL then .ok s
  else call_void s.slots.release_object_func
    (HostCall.release_object s.slots.release_object_func obj)
    (h.run_release_object s.slots.release_object_func obj) s

/-- `void free_string(char *data)`, bridge.c lines 16-21. -/
def free_string {W : Type} (h : Host W) (data : Ptr) (s : State W) :
    Except Fault (State W) :=
  if s.slots.free_string_func = NULL then .ok s
  else call_void s.slots.free_string_func
    (HostCall.free_string s.slots.free_string_func data)
    (h.run_free_string s.slots.free_string_func data) s

/-- `char *resolve_process(void *tun_ctx, int protocol, const char *source,
const char *target, int uid)`, bridge.c lines 23-28. -/
def resolve_process {W : Type} (h : Host W) (tun_ctx : Ptr) (protocol : Int)
    (source target : Ptr) (uid : Int) (s : State W) : Except Fault (Ptr × State W) :=
  if s.slots.resolve_process_func = NULL then .ok (NULL, s)
  else call_ptr s.slots.resolve_process_func
    (HostCall.resolve_process s.slots.resolve_process_func tun_ctx protocol source target uid)
    (h.run_resolve_process s.slots.resolve_process_func tun_ctx protocol source target uid) s

/-- `void protect_socket(void *tun_ctx, int fd)`, bridge.c lines 30-35. -/
def protect_socket {W : Type} (h : Host W) (tun_ctx : Ptr) (fd : Int) (s : State W) :
    Except Fault (State W) :=
  if s.slots.protect_socket_func = NULL then .ok s
  else call_void s.slots.protect_socket_func
    (HostCall.protect_socket s.slots.protect_socket_func tun_ctx fd)
    (h.run_protect_socket s.slots.protect_socket_func tun_ctx fd) s

/-- `void invoke_result(void *callback, const char *data)`, bridge.c lines 37-42. -/
def invoke_result {W : Type} (h : Host W) (callback data : Ptr) (s : State W) :
    Except Fault (State W) :=
  if s.slots.result_func = NULL then .ok s
  else call_void s.slots.result_func
    (HostCall.result s.slots.result_func callback data)
    (h.run_result s.slots.result_func callback data) s

/-- The five file-scope definitions of bridge.c lines 3-7 carry no initialiser;
objects of static storage duration without one start as null pointers. -/
def initial_slots : Slots :=
  { release_object_func := NULL
    free_string_func := NULL
    resolve_process_func := NULL
    protect_socket_func := NULL
    result_func := NULL }

/-- The program state at process start, over a host world `w`. -/
def initial_state {W : Type} (w : W) : State W :=
  { slots := initial_slots, world := w, trace := [] }

/-! ## The native caller: one wrapper invocation, and sequences of them -/

/-- One invocation of a wrapper of `bridge.h` by the native side, with its
arguments. -/
inductive Call where
  | release_object (obj : Ptr)
  | free_string (data : Ptr)
  | resolve_process (tun_ctx : Ptr) (protocol : Int) (source target : Ptr) (uid : Int)
  | protect_socket (tun_ctx : Ptr) (fd : Int)
  | invoke_result (callback data : Ptr)
  deriving DecidableEq, Repr

/-- Perform one wrapper invocation; the value returned by `resolve_process` is
dropped, only the successor state is kept. -/
def dispatch {W : Type} (h : Host W) (c : Call) (s : State W) : Except Fault (State W) :=
  match c with
  | .release_object obj => release_object h obj s
  | .free_string data => free_string h data s
  | .resolve_process tun_ctx protocol source target uid =>
    match resolve_process h tun_ctx protocol source target uid s with
    | .ok (_, s1) => .ok s1
    | .error e => .error e
  | .protect_socket tun_ctx fd => protect_socket h tun_ctx fd s
  | .invoke_result callback data => invoke_result h callback data s

/-- A single native thread issuing wrapper invocations one after the other; a
fault stops the thread. -/
def run {W : Type} (h : Host W) : List Call → State W → Except Fault (State W)
  | [], s => .ok s
  | c :: cs, s =>
    match dispatch h c s with
    | .ok s1 => run h cs s1
    | .error e => .error e

/-- The caller side of the ownership round trip: obtain a buffer from
`resolve_process`, then hand exactly that buffer to `free_string`. -/
def resolve_then_free {W : Type} (h : Host W) (tun_ctx : Ptr) (protocol : Int)
    (source target : Ptr) (uid : Int) (s : State W) : Except Fault (State W) :=
  match resolve_process h tun_ctx protocol source target uid s with
  | .ok (buf, s1) => free_string h buf s1
  | .error e => .error e

/-! ## Vocabulary of the specification -/

/-- The slot that belongs to a wrapper invocation (the capability it asks for). -/
def Call.slot (sl : Slots) : Call → Ptr
  | .release_object _ => sl.release_object_func
  | .free_string _ => sl.free_string_func
  | .resolve_process _ _ _ _ _ => sl.resolve_process_func
  | .protect_socket _ _ => sl.protect_socket_func
  | .invoke_result _ _ => sl.result_func

/-- The host call a wrapper invocation stands for: the function installed in the
invocation's own slot, entered with the invocation's own arguments. -/
def Call.event (sl : Slots) : Call → HostCall
  | .release_object obj => HostCall.release_object sl.release_object_func obj
  | .free_string data => HostCall.free_string sl.free_string_func data
  | .resolve_process tun_ctx protocol source target uid =>
    HostCall.resolve_process sl.resolve_process_func tun_ctx protocol source target uid
  | .protect_socket tun_ctx fd => HostCall.protect_socket sl.protect_socket_func tun_ctx fd
  | .invoke_result callback data => HostCall.result sl.result_func callback data

/-- The trace the specification promises for a sequence of invocations: the
invocations whose slot is set, in the order issued, each turned into its host
call. -/
def expected_trace (sl : Slots) (cs : List Call) : List HostCall :=
  (cs.filter (fun c => decide (c.slot sl ≠ NULL))).map (Call.event sl)

/-- What the host call of an invocation does to the host world: the function
installed in the invocation's own slot, entered once with the invocation's own
arguments. -/
def Call.effect {W : Type} (h : Host W) (sl : Slots) : Call → W → W
  | .release_object obj, w => h.run_release_object sl.release_object_func obj w
  | .free_string data, w => h.run_free_string sl.free_string_func data w
  | .resolve_process tun_ctx protocol source target uid, w =>
    (h.run_resolve_process sl.resolve_process_func tun_ctx protocol source target uid w).2
  | .protect_socket tun_ctx fd, w => h.run_protect_socket sl.protect_socket_func tun_ctx fd w
  | .invoke_result callback data, w => h.run_result sl.result_func callback data w

/-- The host world the specification promises after a sequence of invocations:
the host calls of the invocations whose slot is set, entered one after the other
in the order issued, each exactly once. -/
def expected_world {W : Type} (h : Host W) (sl : Slots) (cs : List Call) (w : W) : W :=
  (cs.filter (fun c => decide (c.slot sl ≠ NULL))).foldl (fun w1 c => c.effect h sl w1) w

/-! ## Concrete hosts and states used to instantiate the theorems -/

/-- Address of a host buffer holding the text "com.example.app". -/
def app_name : Ptr := 0x7000

/-- A host made of recording stubs: every entry point appends what it was
entered with to the host world.  Its resolver answers with `app_name` for uid
1000 and declines (returns null) for every other uid. -/
def recording_host : Host (List HostCall) where
  run_release_object fn obj w := w ++ [HostCall.release_object fn obj]
  run_free_string fn data w := w ++ [HostCall.free_string fn data]
  run_resolve_process fn tun_ctx protocol source target uid w :=
    (if uid = 1000 then app_name else NULL,
      w ++ [HostCall.resolve_process fn tun_ctx protocol source target uid])
  run_protect_socket fn tun_ctx fd w := w ++ [HostCall.protect_socket fn tun_ctx fd]
  run_result fn callback data w := w ++ [HostCall.result fn callback data]

/-- All five capabilities installed, at five distinct addresses. -/
def installed_slots : Slots :=
  { release_object_func := 0x5001
    free_string_func := 0x5002
    resolve_process_func := 0x5003
    protect_socket_func := 0x5004
    result_func := 0x5005 }

/-- Every capability installed except process resolution. -/
def no_resolver_slots : Slots :=
  { installed_slots with resolve_process_func := NULL }

/-- Every capability installed except the two release operations. -/
def no_release_slots : Slots :=
  { installed_slots with release_object_func := NULL, free_string_func := NULL }

/-- A state over the recording host with the given slots and nothing recorded. -/
def fresh (sl : Slots) : State (List HostCall) :=
  { slots := sl, world := [], trace := [] }

/-! ## Basic facts about the wrappers -/

theorem release_object_unset {W : Type} (h : Host W) (obj : Ptr) (s : State W)
    (hu : s.slots.release_object_func = NULL) : release_object h obj s = .ok s := by
  simp [release_object, hu]

theorem release_object_set {W : Type} (h : Host W) (obj : Ptr) (s : State W)
    (hs : s.slots.release_object_func ≠ NULL) :
    release_object h obj s = .ok
      { s with
        world := h.run_release_object s.slots.release_object_func obj s.world
        trace := s.trace ++ [HostCall.release_object s.slots.release_object_func obj] } := by
  simp [release_object, call_void, hs]

theorem free_string_unset {W : Type} (h : Host W) (data : Ptr) (s : State W)
    (hu : s.slots.free_string_func = NULL) : free_string h data s = .ok s := by
  simp [free_string, hu]

theorem free_string_set {W : Type} (h : Host W) (data : Ptr) (s : State W)
    (hs : s.slots.free_string_func ≠ NULL) :
    free_string h data s = .ok
      { s with
        world := h.run_free_string s.slots.free_string_func data s.world
        trace := s.trace ++ [HostCall.free_string s.slots.free_string_func data] } := by
  simp [free_string, call_void, hs]

theorem resolve_process_unset {W : Type} (h : Host W) (tun_ctx : Ptr) (protocol : Int)
    (source target : Ptr) (uid : Int) (s : State W)
    (hu : s.slots.resolve_process_func = NULL) :
    resolve_process h tun_ctx protocol source target uid s = .ok (NULL, s) := by
  simp [resolve_process, hu]

theorem resolve_process_set {W : Type} (h : Host W) (tun_ctx : Ptr) (protocol : Int)
    (source target : Ptr) (uid : Int) (s : State W)
    (hs : s.slots.resolve_process_func ≠ NULL) :
    resolve_process h tun_ctx protocol source target uid s = .ok
      ((h.run_resolve_process s.slots.resolve_process_func tun_ctx protocol source target uid
          s.world).1,
        { s with
          world := (h.run_resolve_process s.slots.resolve_process_func tun_ctx protocol source
            target uid s.world).2
          trace := s.trace ++ [HostCall.resolve_process s.slots.resolve_process_func tun_ctx
            protocol source target uid] }) := by
  simp [resolve_process, call_ptr, hs]

theorem protect_socket_unset {W : Type} (h : Host W) (tun_ctx : Ptr) (fd : Int) (s : State W)
    (hu : s.slots.protect_socket_func = NULL) : protect_socket h tun_ctx fd s = .ok s := by
  simp [protect_socket, hu]

theorem protect_socket_set {W : Type} (h : Host W) (tun_ctx : Ptr) (fd : Int) (s : State W)
    (hs : s.slots.protect_socket_func ≠ NULL) :
    protect_socket h tun_ctx fd s = .ok
      { s with
        world := h.run_protect_socket s.slots.protect_socket_func tun_ctx fd s.world
        trace := s.trace ++ [HostCall.protect_socket s.slots.protect_socket_func tun_ctx fd] } := by
  simp [protect_socket, call_void, hs]

theorem invoke_result_unset {W : Type} (h : Host W) (callback data : Ptr) (s : State W)
    (hu : s.slots.result_func = NULL) : invoke_result h callback data s = .ok s := by
  simp [invoke_result, hu]

theorem invoke_result_set {W : Type} (h : Host W) (callback data : Ptr) (s : State W)
    (hs : s.slots.result_func ≠ NULL) :
    invoke_result h callback data s = .ok
      { s with
        world := h.run_result s.slots.result_func callback data s.world
        trace := s.trace ++ [HostCall.result s.slots.result_func callback data] } := by
  simp [invoke_result, call_void, hs]

/-- One invocation always returns; it keeps the slots and extends the trace by
the expected trace of that single invocation. -/
theorem dispatch_shape {W : Type} (h : Host W) (c : Call) (s : State W) :
    ∃ w : W, dispatch h c s = .ok
      { slots := s.slots, world := w, trace := s.trace ++ expected_trace s.slots [c] } := by
  cases c with
  | release_object obj =>
    by_cases hs : s.slots.release_object_func = NULL
    · exact ⟨s.world, by simp [dispatch, release_object_unset h obj s hs, expected_trace,
        Call.slot, hs]⟩
    · exact ⟨h.run_release_object s.slots.release_object_func obj s.world, by
        simp [dispatch, release_object_set h obj s hs, expected_trace, Call.slot,
          Call.event, hs]⟩
  | free_string data =>
    by_cases hs : s.slots.free_string_func = NULL
    · exact ⟨s.world, by simp [dispatch, free_string_unset h data s hs, expected_trace,
        Call.slot, hs]⟩
    · exact ⟨h.run_free_string s.slots.free_string_func data s.world, by
        simp [dispatch, free_string_set h data s hs, expected_trace, Call.slot,
          Call.event, hs]⟩
  | resolve_process tun_ctx protocol source target uid =>
    by_cases hs : s.slots.resolve_process_func = NULL
    · exact ⟨s.world, by simp [dispatch,
        resolve_process_unset h tun_ctx protocol source target uid s hs, expected_trace,
        Call.slot, hs]⟩
    · exact ⟨(h.run_resolve_process s.slots.resolve_process_func tun_ctx protocol source
          target uid s.world).2, by
        simp [dispatch, resolve_process_set h tun_ctx protocol source target uid s hs,
          expected_trace, Call.slot, Call.event, hs]⟩
  | protect_socket tun_ctx fd =>
    by_cases hs : s.slots.protect_socket_func = NULL
    · exact ⟨s.world, by simp [dispatch, protect_socket_unset h tun_ctx fd s hs,
        expected_trace, Call.slot, hs]⟩
    · exact ⟨h.run_protect_socket s.slots.protect_socket_func tun_ctx fd s.world, by
        simp [dispatch, protect_socket_set h tun_ctx fd s hs, expected_trace, Call.slot,
          Call.event, hs]⟩
  | invoke_result callback data =>
    by_cases hs : s.slots.result_func = NULL
    · exact ⟨s.world, by simp [dispatch, invoke_result_unset h callback data s hs,
        expected_trace, Call.slot, hs]⟩
    · exact ⟨h.run_result s.slots.result_func callback data s.world, by
        simp [dispatch, invoke_result_set h callback data s hs, expected_trace, Call.slot,
          Call.event, hs]⟩

theorem expected_trace_cons (sl : Slots) (c : Call) (cs : List Call) :
    expected_trace sl (c :: cs) = expected_trace sl [c] ++ expected_trace sl cs := by
  by_cases hc : c.slot sl = NULL <;> simp [expected_trace, List.filter_cons, hc]

/-- A sequence of invocations always runs to its end; it keeps the slots and
extends the trace by the expected trace of the sequence. -/
theorem run_shape {W : Type} (h : Host W) (cs : List Call) (s : State W) :
    ∃ w : W, run h cs s = .ok
      { slots := s.slots, world := w, trace := s.trace ++ expected_trace s.slots cs } := by
  induction cs generalizing s with
  | nil => exact ⟨s.world, by simp [run, expected_trace]⟩
  | cons c cs ih =>
    obtain ⟨w1, h1⟩ := dispatch_shape h c s
    obtain ⟨w2, h2⟩ := ih ⟨s.slots, w1, s.trace ++ expected_trace s.slots [c]⟩
    refine ⟨w2, ?_⟩
    simp only [run, h1, h2, expected_trace_cons s.slots c cs, List.append_assoc]

/-- One invocation always returns, and the state it leaves is fully determined:
same slots, the host world after the expected host call (if any), the trace
extended by it. -/
theorem dispatch_full {W : Type} (h : Host W) (c : Call) (s : State W) :
    dispatch h c s = .ok
      { slots := s.slots
        world := expected_world h s.slots [c] s.world
        trace := s.trace ++ expected_trace s.slots [c] } := by
  cases c with
  | release_object obj =>
    by_cases hs : s.slots.release_object_func = NULL
    · simp [dispatch, release_object_unset h obj s hs, expected_trace, expected_world,
        Call.slot, hs]
    · simp [dispatch, release_object_set h obj s hs, expected_trace, expected_world,
        Call.slot, Call.event, Call.effect, hs]
  | free_string data =>
    by_cases hs : s.slots.free_string_func = NULL
    · simp [dispatch, free_string_unset h data s hs, expected_trace, expected_world,
        Call.slot, hs]
    · simp [dispatch, free_string_set h data s hs, expected_trace, expected_world,
        Call.slot, Call.event, Call.effect, hs]
  | resolve_process tun_ctx protocol source target uid =>
    by_cases hs : s.slots.resolve_process_func = NULL
    · simp [dispatch, resolve_process_unset h tun_ctx protocol source target uid s hs,
        expected_trace, expected_world, Call.slot, hs]
    · simp [dispatch, resolve_process_set h tun_ctx protocol source target uid s hs,
        expected_trace, expected_world, Call.slot, Call.event, Call.effect, hs]
  | protect_socket tun_ctx fd =>
    by_cases hs : s.slots.protect_socket_func = NULL
    · simp [dispatch, protect_socket_unset h tun_ctx fd s hs, expected_trace,
        expected_world, Call.slot, hs]
    · simp [dispatch, protect_socket_set h tun_ctx fd s hs, expected_trace, expected_world,
        Call.slot, Call.event, Call.effect, hs]
  | invoke_result callback data =>
    by_cases hs : s.slots.result_func = NULL
    · simp [dispatch, invoke_result_unset h callback data s hs, expected_trace,
        expected_world, Call.slot, hs]
    · simp [dispatch, invoke_result_set h callback data s hs, expected_trace,
        expected_world, Call.slot, Call.event, Call.effect, hs]

theorem expected_world_cons {W : Type} (h : Host W) (sl : Slots) (c : Call) (cs : List Call)
    (w : W) :
    expected_world h sl (c :: cs) w = expected_world h sl cs (expected_world h sl [c] w) := by
  by_cases hc : c.slot sl = NULL <;> simp [expected_world, List.filter_cons, hc]

/-- A sequence of invocations always runs to its end, and the state it leaves is
fully determined: same slots, the expected host world, the trace extended by the
expected trace. -/
theorem run_full {W : Type} (h : Host W) (cs : List Call) (s : State W) :
    run h cs s = .ok
      { slots := s.slots
        world := expected_world h s.slots cs s.world
        trace := s.trace ++ expected_trace s.slots cs } := by
  induction cs generalizing s with
  | nil => simp [run, expected_trace, expected_world]
  | cons c cs ih =>
    simp only [run, dispatch_full h c s, ih, expected_trace_cons s.slots c cs,
      expected_world_cons h s.slots c cs, List.append_assoc]

/-- Each recording stub appends to its log exactly the host call it was entered
for. -/
theorem recording_effect (sl : Slots) (c : Call) (w : List HostCall) :
    c.effect recording_host sl w = w ++ [c.event sl] := by
  cases c <;> rfl

/-- The log kept by the recording stubs after a sequence of invocations is the
expected trace of the sequence. -/
theorem expected_world_recording (sl : Slots) (cs : List Call) (w : List HostCall) :
    expected_world recording_host sl cs w = w ++ expected_trace sl cs := by
  induction cs generalizing w with
  | nil => simp [expected_world, expected_trace]
  | cons c cs ih =>
    rw [expected_world_cons, ih, expected_trace_cons, ← List.append_assoc]
    congr 1
    by_cases hc : c.slot sl = NULL
    · simp [expected_world, expected_trace, hc]
    · simp [expected_world, expected_trace, hc, recording_effect]

/-- Any number of `free_string` calls on an unset slot leaves the state as it is. -/
theorem run_free_string_unset {W : Type} (h : Host W) (s : State W)
    (hu : s.slots.free_string_func = NULL) (l : List Ptr) :
    run h (l.map Call.free_string) s = .ok s := by
  induction l with
  | nil => rfl
  | cons a l ih => simp only [List.map_cons, run, dispatch, free_string_unset h a s hu, ih]

/-- Any number of `release_object` calls on an unset slot leaves the state as it is. -/
theorem run_release_object_unset {W : Type} (h : Host W) (s : State W)
    (hu : s.slots.release_object_func = NULL) (l : List Ptr) :
    run h (l.map Call.release_object) s = .ok s := by
  induction l with
  | nil => rfl
  | cons a l ih => simp only [List.map_cons, run, dispatch, release_object_unset h a s hu, ih]

/-! ## The specification's claims -/

/-- C1: in a state where all five slots are unset and no host call has been
traced, each of the five wrappers returns normally for every argument tuple:
the four void wrappers yield nothing and `resolve_process` yields `NULL`; the
state left behind is the state entered (slots and host world untouched), and
its host-call trace is still empty. -/
theorem all_unset_neutral {W : Type} (h : Host W) (s : State W)
    (h_release : s.slots.release_object_func = NULL)
    (h_free : s.slots.free_string_func = NULL)
    (h_resolve : s.slots.resolve_process_func = NULL)
    (h_protect : s.slots.protect_socket_func = NULL)
    (h_result : s.slots.result_func = NULL)
    (h_trace : s.trace = [])
    (obj str ctx1 src dst ctx2 cb payload : Ptr) (proto uid fd : Int) :
    (release_object h obj s = .ok s ∧
      Except.map State.trace (release_object h obj s) = .ok []) ∧
    (free_string h str s = .ok s ∧
      Except.map State.trace (free_string h str s) = .ok []) ∧
    (resolve_process h ctx1 proto src dst uid s = .ok (NULL, s) ∧
      Except.map (fun r => r.2.trace) (resolve_process h ctx1 proto src dst uid s) = .ok []) ∧
    (protect_socket h ctx2 fd s = .ok s ∧
      Except.map State.trace (protect_socket h ctx2 fd s) = .ok []) ∧
    (invoke_result h cb payload s = .ok s ∧
      Except.map State.trace (invoke_result h cb payload s) = .ok []) := by
  rw [release_object_unset h obj s h_release, free_string_unset h str s h_free,
    resolve_process_unset h ctx1 proto src dst uid s h_resolve,
    protect_socket_unset h ctx2 fd s h_protect, invoke_result_unset h cb payload s h_result]
  simp [Except.map, h_trace]

/-- Instance of C1: `invoke_result(cb, payload)` and a `resolve_process` call on
the recording host with nothing installed; the stubs record nothing. -/
theorem all_unset_neutral_witness :
    (fresh initial_slots).trace = [] ∧
    invoke_result recording_host 0x9000 0x9100 (fresh initial_slots)
      = .ok (fresh initial_slots) ∧
    resolve_process recording_host 0x10 6 0x8000 0x8100 1000 (fresh initial_slots)
      = .ok (NULL, fresh initial_slots) :=
  ⟨rfl,
    (all_unset_neutral recording_host (fresh initial_slots) rfl rfl rfl rfl rfl rfl
      0x20 0x30 0x10 0x8000 0x8100 0x10 0x9000 0x9100 6 1000 42).2.2.2.2.1,
    (all_unset_neutral recording_host (fresh initial_slots) rfl rfl rfl rfl rfl rfl
      0x20 0x30 0x10 0x8000 0x8100 0x10 0x9000 0x9100 6 1000 42).2.2.1.1⟩

/-- C2: when a host function `f` is installed in `resolve_process_func`, the call
`resolve_process(tun_ctx, protocol, source, target, uid)` returns exactly the
value of `f(tun_ctx, protocol, source, target, uid)`: `f` is entered once with
the five arguments in the same positions, and its result is handed back as is
(the host world becomes whatever `f` leaves). -/
theorem resolve_process_forwards {W : Type} (h : Host W) (s : State W)
    (f : Ptr → Int → Ptr → Ptr → Int → W → Ptr × W)
    (h_set : s.slots.resolve_process_func ≠ NULL)
    (h_f : h.run_resolve_process s.slots.resolve_process_func = f)
    (tun_ctx : Ptr) (protocol : Int) (source target : Ptr) (uid : Int) :
    resolve_process h tun_ctx protocol source target uid s = .ok
      ((f tun_ctx protocol source target uid s.world).1,
        { slots := s.slots
          world := (f tun_ctx protocol source target uid s.world).2
          trace := s.trace ++ [HostCall.resolve_process s.slots.resolve_process_func
            tun_ctx protocol source target uid] }) := by
  subst h_f
  exact resolve_process_set h tun_ctx protocol source target uid s h_set

/-- Instance of C2: the stub resolver answers `app_name`, and so does the wrapper;
the stub saw the five arguments as passed. -/
theorem resolve_process_forwards_witness :
    resolve_process recording_host 0x10 6 0x8000 0x8100 1000 (fresh installed_slots) = .ok
      (app_name,
        { slots := installed_slots
          world := [HostCall.resolve_process 0x5003 0x10 6 0x8000 0x8100 1000]
          trace := [HostCall.resolve_process 0x5003 0x10 6 0x8000 0x8100 1000] }) :=
  resolve_process_forwards recording_host (fresh installed_slots)
    (recording_host.run_resolve_process 0x5003) (by decide) rfl 0x10 6 0x8000 0x8100 1000

/-- C3: for each of the four void wrappers, when its own slot is set, one call of
the wrapper returns normally having made exactly one host call: the trace grows
by the single entry "function in the wrapper's own slot, entered with the
wrapper's arguments", and the host world is changed by that function alone.
Nothing is assumed about the other four slots. -/
theorem void_wrappers_forward_once {W : Type} (h : Host W) (s : State W) :
    (∀ obj : Ptr, s.slots.release_object_func ≠ NULL →
      release_object h obj s = .ok
        { slots := s.slots
          world := h.run_release_object s.slots.release_object_func obj s.world
          trace := s.trace ++ [HostCall.release_object s.slots.release_object_func obj] }) ∧
    (∀ data : Ptr, s.slots.free_string_func ≠ NULL →
      free_string h data s = .ok
        { slots := s.slots
          world := h.run_free_string s.slots.free_string_func data s.world
          trace := s.trace ++ [HostCall.free_string s.slots.free_string_func data] }) ∧
    (∀ (tun_ctx : Ptr) (fd : Int), s.slots.protect_socket_func ≠ NULL →
      protect_socket h tun_ctx fd s = .ok
        { slots := s.slots
          world := h.run_protect_socket s.slots.protect_socket_func tun_ctx fd s.world
          trace := s.trace ++
            [HostCall.protect_socket s.slots.protect_socket_func tun_ctx fd] }) ∧
    (∀ callback data : Ptr, s.slots.result_func ≠ NULL →
      invoke_result h callback data s = .ok
        { slots := s.slots
          world := h.run_result s.slots.result_func callback data s.world
          trace := s.trace ++ [HostCall.result s.slots.result_func callback data] }) :=
  ⟨fun obj hs => release_object_set h obj s hs,
    fun data hs => free_string_set h data s hs,
    fun tun_ctx fd hs => protect_socket_set h tun_ctx fd s hs,
    fun callback data hs => invoke_result_set h callback data s hs⟩

/-- Instance of C3: `protect_socket(ctx, 42)` with a recording stub installed; the
stub's record (the host world) holds `(ctx, 42)` exactly once, and so does the
trace.  Likewise for the other three void wrappers. -/
theorem void_wrappers_forward_once_witness :
    protect_socket recording_host 0x10 42 (fresh installed_slots) = .ok
      { slots := installed_slots
        world := [HostCall.protect_socket 0x5004 0x10 42]
        trace := [HostCall.protect_socket 0x5004 0x10 42] } ∧
    release_object recording_host 0x20 (fresh installed_slots) = .ok
      { slots := installed_slots
        world := [HostCall.release_object 0x5001 0x20]
        trace := [HostCall.release_object 0x5001 0x20] } ∧
    free_string recording_host app_name (fresh installed_slots) = .ok
      { slots := installed_slots
        world := [HostCall.free_string 0x5002 app_name]
        trace := [HostCall.free_string 0x5002 app_name] } ∧
    invoke_result recording_host 0x9000 0x9100 (fresh installed_slots) = .ok
      { slots := installed_slots
        world := [HostCall.result 0x5005 0x9000 0x9100]
        trace := [HostCall.result 0x5005 0x9000 0x9100] } :=
  ⟨(void_wrappers_forward_once recording_host (fresh installed_slots)).2.2.1 0x10 42
      (by decide),
    (void_wrappers_forward_once recording_host (fresh installed_slots)).1 0x20 (by decide),
    (void_wrappers_forward_once recording_host (fresh installed_slots)).2.1 app_name
      (by decide),
    (void_wrappers_forward_once recording_host (fresh installed_slots)).2.2.2 0x9000 0x9100
      (by decide)⟩

/-- C4: whatever the other four slots hold, if `resolve_process_func` is unset then
`resolve_process` returns `NULL` for every argument tuple and makes no host call
(state, and with it the trace, unchanged). -/
theorem resolve_process_absent_when_unset {W : Type} (h : Host W) (s : State W)
    (h_unset : s.slots.resolve_process_func = NULL)
    (tun_ctx : Ptr) (protocol : Int) (source target : Ptr) (uid : Int) :
    resolve_process h tun_ctx protocol source target uid s = .ok (NULL, s) ∧
    Except.map (fun r => r.2.trace) (resolve_process h tun_ctx protocol source target uid s)
      = .ok s.trace := by
  rw [resolve_process_unset h tun_ctx protocol source target uid s h_unset]
  exact ⟨rfl, rfl⟩

/-- Instance of C4: the TCP flow of the scenario (source text at 0x8000, target text
at 0x8100, uid 1000), the other four capabilities being installed. -/
theorem resolve_process_absent_when_unset_witness :
    no_resolver_slots.resolve_process_func = NULL ∧
    resolve_process recording_host 0x10 6 0x8000 0x8100 1000 (fresh no_resolver_slots)
      = .ok (NULL, fresh no_resolver_slots) :=
  ⟨rfl,
    (resolve_process_absent_when_unset recording_host (fresh no_resolver_slots) rfl
      0x10 6 0x8000 0x8100 1000).1⟩

/-- C5: `resolve_process` always returns normally, and the value it returns is
`NULL` exactly when its slot is unset or the installed function returns `NULL`
for those arguments.  Moreover the value returned from any state with the slot
unset equals the value returned from any state whose installed function
declines: the caller cannot tell the two apart. -/
theorem resolve_process_absent_iff {W : Type} (h : Host W) (s : State W)
    (tun_ctx : Ptr) (protocol : Int) (source target : Ptr) (uid : Int) :
    (∃ (r : Ptr) (s1 : State W),
      resolve_process h tun_ctx protocol source target uid s = .ok (r, s1) ∧
      (r = NULL ↔
        s.slots.resolve_process_func = NULL ∨
        (s.slots.resolve_process_func ≠ NULL ∧
          (h.run_resolve_process s.slots.resolve_process_func tun_ctx protocol source target
            uid s.world).1 = NULL))) ∧
    (∀ (h_decl : Host W) (s_decl : State W),
      s.slots.resolve_process_func = NULL →
      s_decl.slots.resolve_process_func ≠ NULL →
      (h_decl.run_resolve_process s_decl.slots.resolve_process_func tun_ctx protocol
        source target uid s_decl.world).1 = NULL →
      Except.map Prod.fst (resolve_process h tun_ctx protocol source target uid s) =
        Except.map Prod.fst
          (resolve_process h_decl tun_ctx protocol source target uid s_decl)) := by
  constructor
  · by_cases hs : s.slots.resolve_process_func = NULL
    · exact ⟨NULL, s, resolve_process_unset h tun_ctx protocol source target uid s hs,
        by simp [hs]⟩
    · exact ⟨_, _, resolve_process_set h tun_ctx protocol source target uid s hs,
        by simp [hs]⟩
  · intro h_decl s_decl hu hd_set hd_null
    rw [resolve_process_unset h tun_ctx protocol source target uid s hu,
      resolve_process_set h_decl tun_ctx protocol source target uid s_decl hd_set]
    simp [Except.map, hd_null]

/-- Instance of C5: uid 2000 is declined by the stub resolver; the call with no
resolver installed and the call with the declining resolver installed return the
same value. -/
theorem resolve_process_absent_iff_witness :
    Except.map Prod.fst
        (resolve_process recording_host 0x10 6 0x8000 0x8100 2000 (fresh no_resolver_slots)) =
      Except.map Prod.fst
        (resolve_process recording_host 0x10 6 0x8000 0x8100 2000 (fresh installed_slots)) :=
  (resolve_process_absent_iff recording_host (fresh no_resolver_slots) 0x10 6 0x8000 0x8100
    2000).2 recording_host (fresh installed_slots) rfl (by decide) rfl

/-- C6: idempotence of absence.  For every `n` and every sequence of `n` arguments,
`n` calls of `free_string` with `free_string_func` unset, or `n` calls of
`release_object` with `release_object_func` unset, return normally and leave the
whole state (slots, host world, host-call trace) exactly as it was, which is
also what zero calls leave. -/
theorem absence_is_idempotent {W : Type} (h : Host W) (s : State W) (n : Nat)
    (args : Fin n → Ptr) :
    (s.slots.free_string_func = NULL →
      run h ((List.ofFn args).map Call.free_string) s = .ok s) ∧
    (s.slots.release_object_func = NULL →
      run h ((List.ofFn args).map Call.release_object) s = .ok s) ∧
    run h [] s = .ok s :=
  ⟨fun hu => run_free_string_unset h s hu (List.ofFn args),
    fun hu => run_release_object_unset h s hu (List.ofFn args), rfl⟩

/-- Instance of C6: three `free_string` calls (the same buffer twice) and three
`release_object` calls while the two release slots are unset and the other three
are installed. -/
theorem absence_is_idempotent_witness :
    run recording_host ((List.ofFn ![0x30, 0x31, 0x30]).map Call.free_string)
      (fresh no_release_slots) = .ok (fresh no_release_slots) ∧
    run recording_host ((List.ofFn ![0x30, 0x31, 0x30]).map Call.release_object)
      (fresh no_release_slots) = .ok (fresh no_release_slots) :=
  ⟨(absence_is_idempotent recording_host (fresh no_release_slots) 3 ![0x30, 0x31, 0x30]).1 rfl,
    (absence_is_idempotent recording_host (fresh no_release_slots) 3
      ![0x30, 0x31, 0x30]).2.1 rfl⟩

/-- C7: ownership round trip.  With `resolve_process_func` and `free_string_func`
both set, `resolve_process(a)` alone makes exactly one host call, to the
installed resolver (never to the `free_string` slot), and `resolve_process(a)`
followed by `free_string` on the value it returned leaves the trace extended by
exactly two entries: the resolver entered with `a`, then the installed
`free_string_func` entered with the resolver's result. -/
theorem ownership_round_trip {W : Type} (h : Host W) (s : State W)
    (h_f : s.slots.resolve_process_func ≠ NULL) (h_g : s.slots.free_string_func ≠ NULL)
    (tun_ctx : Ptr) (protocol : Int) (source target : Ptr) (uid : Int) :
    resolve_process h tun_ctx protocol source target uid s = .ok
      ((h.run_resolve_process s.slots.resolve_process_func tun_ctx protocol source target uid
          s.world).1,
        { slots := s.slots
          world := (h.run_resolve_process s.slots.resolve_process_func tun_ctx protocol
            source target uid s.world).2
          trace := s.trace ++ [HostCall.resolve_process s.slots.resolve_process_func tun_ctx
            protocol source target uid] }) ∧
    resolve_then_free h tun_ctx protocol source target uid s = .ok
      { slots := s.slots
        world := h.run_free_string s.slots.free_string_func
          (h.run_resolve_process s.slots.resolve_process_func tun_ctx protocol source target
            uid s.world).1
          (h.run_resolve_process s.slots.resolve_process_func tun_ctx protocol source target
            uid s.world).2
        trace := s.trace ++
          [HostCall.resolve_process s.slots.resolve_process_func tun_ctx protocol source
              target uid,
            HostCall.free_string s.slots.free_string_func
              (h.run_resolve_process s.slots.resolve_process_func tun_ctx protocol source
                target uid s.world).1] } := by
  refine ⟨resolve_process_set h tun_ctx protocol source target uid s h_f, ?_⟩
  unfold resolve_then_free
  rw [resolve_process_set h tun_ctx protocol source target uid s h_f]
  simp [free_string, call_void, h_g]

/-- Instance of C7: the stub resolver hands out `app_name`, which then reaches the
stub `free_string_func` and nothing else. -/
theorem ownership_round_trip_witness :
    resolve_then_free recording_host 0x10 6 0x8000 0x8100 1000 (fresh installed_slots) = .ok
      { slots := installed_slots
        world := [HostCall.resolve_process 0x5003 0x10 6 0x8000 0x8100 1000,
          HostCall.free_string 0x5002 app_name]
        trace := [HostCall.resolve_process 0x5003 0x10 6 0x8000 0x8100 1000,
          HostCall.free_string 0x5002 app_name] } :=
  (ownership_round_trip recording_host (fresh installed_slots) (by decide) (by decide)
    0x10 6 0x8000 0x8100 1000).2

/-- C8: dispatch preserves issue order, without retries or queuing.  For every slot
state and every finite sequence of wrapper calls the run returns normally and
the state it leaves is fully determined.  The slots are unchanged.  The host
world is the one obtained by entering, for the calls whose slot is set and in
the order issued, the function installed in the call's own slot exactly once
with the call's own arguments; calls whose slot is unset contribute nothing.
The trace of host calls is that same subsequence, so it grows by the number of
calls whose slot is set.  In particular, when the installed functions are
recording stubs, the stubs' own log grows by exactly that subsequence. -/
theorem dispatch_in_issue_order {W : Type} (h : Host W) (s : State W) (cs : List Call) :
    run h cs s = .ok
      { slots := s.slots
        world := (cs.filter (fun c => decide (c.slot s.slots ≠ NULL))).foldl
          (fun w c => c.effect h s.slots w) s.world
        trace := s.trace ++
          (cs.filter (fun c => decide (c.slot s.slots ≠ NULL))).map (Call.event s.slots) } ∧
    Except.map State.trace (run h cs s) = .ok
      (s.trace ++
        (cs.filter (fun c => decide (c.slot s.slots ≠ NULL))).map (Call.event s.slots)) ∧
    Except.map (fun s1 => s1.trace.length) (run h cs s) = .ok
      (s.trace.length + cs.countP (fun c => decide (c.slot s.slots ≠ NULL))) ∧
    (∀ r : State (List HostCall), run recording_host cs r = .ok
      { slots := r.slots
        world := r.world ++
          (cs.filter (fun c => decide (c.slot r.slots ≠ NULL))).map (Call.event r.slots)
        trace := r.trace ++
          (cs.filter (fun c => decide (c.slot r.slots ≠ NULL))).map (Call.event r.slots) }) := by
  refine ⟨run_full h cs s, ?_, ?_, ?_⟩
  · rw [run_full h cs s]; rfl
  · rw [run_full h cs s]
    simp [Except.map, expected_trace, List.countP_eq_length_filter]
  · intro r
    rw [run_full recording_host cs r, expected_world_recording]
    rfl

/-- Instance of C8: six calls on the recording host while the two release slots are
unset.  The four calls whose slot is set appear in the trace in the order
issued, and the stubs' own log (the host world) holds exactly the same four
entries: each stub was entered once, with the arguments of its call. -/
theorem dispatch_in_issue_order_witness :
    run recording_host
        [Call.free_string 0x30, Call.protect_socket 0x10 42, Call.release_object 0x20,
          Call.resolve_process 0x10 6 0x8000 0x8100 1000, Call.invoke_result 0x9000 0x9100,
          Call.protect_socket 0x10 43]
        (fresh no_release_slots) = .ok
      { slots := no_release_slots
        world :=
          [HostCall.protect_socket 0x5004 0x10 42,
            HostCall.resolve_process 0x5003 0x10 6 0x8000 0x8100 1000,
            HostCall.result 0x5005 0x9000 0x9100,
            HostCall.protect_socket 0x5004 0x10 43]
        trace :=
          [HostCall.protect_socket 0x5004 0x10 42,
            HostCall.resolve_process 0x5003 0x10 6 0x8000 0x8100 1000,
            HostCall.result 0x5005 0x9000 0x9100,
            HostCall.protect_socket 0x5004 0x10 43] } :=
  (dispatch_in_issue_order recording_host (fresh no_release_slots)
    [Call.free_string 0x30, Call.protect_socket 0x10 42, Call.release_object 0x20,
      Call.resolve_process 0x10 6 0x8000 0x8100 1000, Call.invoke_result 0x9000 0x9100,
      Call.protect_socket 0x10 43]).1

/-- C9: at process start all five slots are `NULL`, so every wrapper called before
any installation takes its neutral path: it returns normally, leaves the state
as it is, and `resolve_process` yields `NULL`. -/
theorem initial_slots_unset {W : Type} (h : Host W) (w : W) :
    (initial_state w).slots.release_object_func = NULL ∧
    (initial_state w).slots.free_string_func = NULL ∧
    (initial_state w).slots.resolve_process_func = NULL ∧
    (initial_state w).slots.protect_socket_func = NULL ∧
    (initial_state w).slots.result_func = NULL ∧
    (∀ c : Call, dispatch h c (initial_state w) = .ok (initial_state w)) ∧
    (∀ (tun_ctx : Ptr) (protocol : Int) (source target : Ptr) (uid : Int),
      resolve_process h tun_ctx protocol source target uid (initial_state w)
        = .ok (NULL, initial_state w)) := by
  refine ⟨rfl, rfl, rfl, rfl, rfl, ?_, ?_⟩
  · intro c
    cases c with
    | release_object obj =>
      simp only [dispatch]; exact release_object_unset h obj _ rfl
    | free_string data =>
      simp only [dispatch]; exact free_string_unset h data _ rfl
    | resolve_process tun_ctx protocol source target uid =>
      simp only [dispatch, resolve_process_unset h tun_ctx protocol source target uid
        (initial_state w) rfl]
    | protect_socket tun_ctx fd =>
      simp only [dispatch]; exact protect_socket_unset h tun_ctx fd _ rfl
    | invoke_result callback data =>
      simp only [dispatch]; exact invoke_result_unset h callback data _ rfl
  · intro tun_ctx protocol source target uid
    exact resolve_process_unset h tun_ctx protocol source target uid _ rfl

/-- C10: no wrapper writes a slot.  Host functions act on the host world only (they
do not reassign a slot); then for every slot state and every argument tuple each
of the five wrappers returns normally with all five slots holding the values
they held before, and the same is true after any sequence of wrapper calls. -/
theorem wrappers_preserve_slots {W : Type} (h : Host W) (s : State W) :
    (∀ obj : Ptr, Except.map State.slots (release_object h obj s) = .ok s.slots) ∧
    (∀ data : Ptr, Except.map State.slots (free_string h data s) = .ok s.slots) ∧
    (∀ (tun_ctx : Ptr) (protocol : Int) (source target : Ptr) (uid : Int),
      Except.map (fun r => r.2.slots) (resolve_process h tun_ctx protocol source target uid s)
        = .ok s.slots) ∧
    (∀ (tun_ctx : Ptr) (fd : Int),
      Except.map State.slots (protect_socket h tun_ctx fd s) = .ok s.slots) ∧
    (∀ callback data : Ptr,
      Except.map State.slots (invoke_result h callback data s) = .ok s.slots) ∧
    (∀ cs : List Call, Except.map State.slots (run h cs s) = .ok s.slots) := by
  refine ⟨?_, ?_, ?_, ?_, ?_, ?_⟩
  · intro obj
    by_cases hs : s.slots.release_object_func = NULL
    · rw [release_object_unset h obj s hs]; rfl
    · rw [release_object_set h obj s hs]; rfl
  · intro data
    by_cases hs : s.slots.free_string_func = NULL
    · rw [free_string_unset h data s hs]; rfl
    · rw [free_string_set h data s hs]; rfl
  · intro tun_ctx protocol source target uid
    by_cases hs : s.slots.resolve_process_func = NULL
    · rw [resolve_process_unset h tun_ctx protocol source target uid s hs]; rfl
    · rw [resolve_process_set h tun_ctx protocol source target uid s hs]; rfl
  · intro tun_ctx fd
    by_cases hs : s.slots.protect_socket_func = NULL
    · rw [protect_socket_unset h tun_ctx fd s hs]; rfl
    · rw [protect_socket_set h tun_ctx fd s hs]; rfl
  · intro callback data
    by_cases hs : s.slots.result_func = NULL
    · rw [invoke_result_unset h callback data s hs]; rfl
    · rw [invoke_result_set h callback data s hs]; rfl
  · intro cs
    obtain ⟨w, hw⟩ := run_shape h cs s
    rw [hw]; rfl

end Bridge
